import Mathlib

/-!
Verification of the coSPEC n8n node core logic: the output normalizer
(flattenRunOutput), the API error extractor (extractApiErrorMessage /
extractFromBody), the API client error wrapping (cospecApiRequest), and the
run poller (pollUntilComplete), together with createRun / getRun dispatch.

JavaScript runtime values are modelled by the inductive type JVal; objects
are association lists in insertion order (JavaScript objects preserve string
key insertion order and never hold duplicate keys).  Property access that
throws a TypeError at runtime (access on null or undefined) is modelled by
Except; safe access (which yields undefined for a missing key or a primitive
receiver) is the total function jget.
-/

/-- A JavaScript runtime value. -/
inductive JVal : Type where
  | undefined : JVal
  | null : JVal
  | bool : Bool → JVal
  | num : Int → JVal
  | str : String → JVal
  | arr : List JVal → JVal
  | obj : List (String × JVal) → JVal
deriving Repr

/-- A JavaScript object: fields in insertion order. -/
abbrev JObj := List (String × JVal)

/-- First binding of a key in an object (JavaScript objects have no duplicate
keys, so first = only). -/
def jlookup (o : JObj) (k : String) : Option JVal :=
  match o with
  | [] => none
  | (k2, v) :: rest => if k2 = k then some v else jlookup rest k

/-- Safe property access: `v.k` where `v` is known non-null.  Missing keys and
primitive receivers give undefined (primitive boxing has no own properties). -/
def jget (v : JVal) (k : String) : JVal :=
  match v with
  | .obj fields =>
    match jlookup fields k with
    | some x => x
    | none => .undefined
  | _ => .undefined

/-- Raw property access `v.k`: throws a TypeError when the receiver is null or
undefined, otherwise behaves like jget. -/
def jgetE (v : JVal) (k : String) : Except String JVal :=
  match v with
  | .null => .error "TypeError: cannot read properties of null"
  | .undefined => .error "TypeError: cannot read properties of undefined"
  | _ => .ok (jget v k)

/-- JavaScript truthiness. -/
def truthy : JVal → Bool
  | .undefined => false
  | .null => false
  | .bool b => b
  | .num n => n != 0
  | .str s => !s.isEmpty
  | .arr _ => true
  | .obj _ => true

/-- Strict equality `v === s` against a string literal. -/
def strictEqStr (v : JVal) (s : String) : Bool :=
  match v with
  | .str s2 => s2 == s
  | _ => false

/-- Nullish coalescing on a property read: `o.k ?? d` (absence reads as
undefined). -/
def nullishDefault (v : Option JVal) (d : JVal) : JVal :=
  match v with
  | none => d
  | some .null => d
  | some .undefined => d
  | some v => v

/-- Whether an object has a binding for a key. -/
def hasKey (o : JObj) (k : String) : Bool :=
  match o with
  | [] => false
  | (k2, _) :: rest => k2 == k || hasKey rest k

/-- Object spread / property assignment: an existing key keeps its position and
takes the new value, a fresh key is appended. -/
def setKey (o : JObj) (k : String) (v : JVal) : JObj :=
  match o with
  | [] => [(k, v)]
  | (k2, v2) :: rest => if k2 = k then (k2, v) :: rest else (k2, v2) :: setKey rest k v

-- ---------------------------------------------------------------------------
-- Output normalizer (flattenRunOutput in GenericFunctions.ts)
-- ---------------------------------------------------------------------------

/-- Internal field names stripped by the normalizer. -/
def INTERNAL_FIELDS : List String :=
  ["callbackUrl", "callbackStatus", "cancelRequestedAt", "templateId"]

/-- `outputs.find((o) => o.type === type)`: scans left to right, evaluating
`o.type` on each element (which throws on a null or undefined element) until
the first element whose type tag strictly equals the given string. -/
def firstOfType (outputs : List JVal) (type : String) : Except String (Option JVal) :=
  match outputs with
  | [] => .ok none
  | o :: rest =>
    match jgetE o "type" with
    | .error e => .error e
    | .ok t => if strictEqStr t type then .ok (some o) else firstOfType rest type

/-- `x ? { url: x.url, title: x.title, number: x.number } : null` for the pr and
issue outputs (a found output record is an object, hence truthy). -/
def recordShape (o : Option JVal) : JVal :=
  match o with
  | some x => .obj [("url", jget x "url"), ("title", jget x "title"), ("number", jget x "number")]
  | none => .null

/-- `x ? { name: x.name } : null` for the branch output. -/
def branchShape (o : Option JVal) : JVal :=
  match o with
  | some x => .obj [("name", jget x "name")]
  | none => .null

/-- `(text?.content as string) ?? null` for the summary field. -/
def summaryShape (o : Option JVal) : JVal :=
  match o with
  | some x =>
    match jget x "content" with
    | .null => .null
    | .undefined => .null
    | v => v
  | none => .null

/-- `Object.fromEntries(Object.entries(run).filter(([key]) =>
!INTERNAL_FIELDS.has(key)))`: the run record with internal fields dropped. -/
def filterInternal (run : JObj) : JObj :=
  run.filter fun kv => !(INTERNAL_FIELDS.contains kv.1)

/-- flattenRunOutput: drops the internal fields, reads `outputs ?? []`, scans it
for the first output of each of the four known types, and spreads the filtered
record with the four derived fields.  A present non-array (and non-nullish)
`outputs` value makes the `.find` call throw, as does a null or undefined array
element reached by a scan. -/
def flattenRunOutput (run : JObj) : Except String JObj :=
  match nullishDefault (jlookup (filterInternal run) "outputs") (JVal.arr []) with
  | .arr outputs =>
    match firstOfType outputs "pr" with
    | .error e => .error e
    | .ok pr =>
      match firstOfType outputs "issue" with
      | .error e => .error e
      | .ok issue =>
        match firstOfType outputs "branch" with
        | .error e => .error e
        | .ok branch =>
          match firstOfType outputs "text" with
          | .error e => .error e
          | .ok text =>
            .ok (setKey (setKey (setKey (setKey (filterInternal run) "pr" (recordShape pr))
              "issue" (recordShape issue)) "branch" (branchShape branch))
              "summary" (summaryShape text))
  | _ => .error "TypeError: outputs.find is not a function"

/-- Pure first-match scan used to state what the derived fields are: the first
element of the list whose type tag is the given string. -/
def jfindType (outputs : List JVal) (type : String) : Option JVal :=
  outputs.find? fun o => strictEqStr (jget o "type") type

/-- The outputs list a run record is normalized against: the value of its
`outputs` field when that is an array, else the empty list. -/
def runOutputsList (run : JObj) : List JVal :=
  match nullishDefault (jlookup run "outputs") (JVal.arr []) with
  | .arr l => l
  | _ => []

-- ---------------------------------------------------------------------------
-- Error extractor (extractApiErrorMessage / extractFromBody)
-- ---------------------------------------------------------------------------

/-- The final `title` check of extractFromBody: `data.title` if it is a
string, else undefined. -/
def titleFallback (data : JVal) : Option String :=
  match jget data "title" with
  | .str s => some s
  | _ => none

/-- extractFromBody: reads a message out of an RFC 9457 style body.  `detail`
if it is a string; else, when `errors` is a non-empty array, the `message` of
its first entry if that is a string (reading `message` throws when the first
entry is null or undefined); else `title` if it is a string; else undefined. -/
def extractFromBody (data : JVal) : Except String (Option String) :=
  match jget data "detail" with
  | .str s => .ok (some s)
  | _ =>
    match jget data "errors" with
    | .arr (first :: _) =>
      match jgetE first "message" with
      | .error e => .error e
      | .ok (.str s) => .ok (some s)
      | .ok _ => .ok (titleFallback data)
    | _ => .ok (titleFallback data)

/-- The caller-side step around extractFromBody: the located body value is only
consulted when truthy, and the returned message only kept when truthy (a
non-empty string). -/
def tryBody (v : JVal) : Except String (Option String) :=
  if truthy v then
    match extractFromBody v with
    | .error e => .error e
    | .ok (some s) => .ok (if s.isEmpty then none else some s)
    | .ok none => .ok none
  else .ok none

/-- extractApiErrorMessage: body at `error.context?.data` first (reading
`context` throws when the error itself is null or undefined), else body at
`error.cause?.response?.data`, else a string `description` on the error, else
the error's own truthy `message` value, else the literal fallback. -/
def extractApiErrorMessage (error : JVal) : Except String JVal :=
  match jgetE error "context" with
  | .error e => .error e
  | .ok ctx =>
    match tryBody (jget ctx "data") with
    | .error e => .error e
    | .ok (some s) => .ok (.str s)
    | .ok none =>
      match tryBody (jget (jget (jget error "cause") "response") "data") with
      | .error e => .error e
      | .ok (some s) => .ok (.str s)
      | .ok none =>
        match jget error "description" with
        | .str d => .ok (.str d)
        | _ =>
          if truthy (jget error "message") then .ok (jget error "message")
          else .ok (.str "Unknown API error")

-- ---------------------------------------------------------------------------
-- Spec-side description of the extractor (for the refinement claim C1).
-- These definitions follow the words of the specification, not the code.
-- ---------------------------------------------------------------------------

/-- Modelled from the spec: within a located body, the `detail` string if
present, else the `message` of the first entry of a non-empty `errors` array,
else the `title` string. -/
def specBodyMessage (body : JVal) : Option String :=
  match jget body "detail" with
  | .str s => some s
  | _ =>
    match jget body "errors" with
    | .arr (first :: _) =>
      match jget first "message" with
      | .str s => some s
      | _ => titleFallback body
    | _ => titleFallback body

/-- Modelled from the spec: the message a candidate body location yields — a
located response body is an object, and it yields its body message. -/
def specLocMsg (v : JVal) : Option String :=
  match v with
  | .obj fields => specBodyMessage (.obj fields)
  | _ => none

/-- Modelled from the spec: the total extraction priority — context body,
else transport-cause body, else a `description` string, else the error's own
`message` string, else the literal fallback. -/
def specExtract (e : JVal) : String :=
  match specLocMsg (jget (jget e "context") "data") with
  | some s => s
  | none =>
    match specLocMsg (jget (jget (jget e "cause") "response") "data") with
    | some s => s
    | none =>
      match jget e "description" with
      | .str d => d
      | _ =>
        match jget e "message" with
        | .str m => m
        | _ => "Unknown API error"

/-- Head of a body's `errors` array is safe to read `message` from (not null or
undefined), so extraction from the body cannot throw. -/
def headSafe (b : JVal) : Bool :=
  match jget b "errors" with
  | .arr (first :: _) =>
    match first with
    | .null => false
    | .undefined => false
    | _ => true
  | _ => true

/-- A candidate body location is well behaved: extraction from it cannot throw
and any message it yields is non-empty (so that code truthiness agrees with
spec presence). -/
def bodyOK (b : JVal) : Bool :=
  headSafe b && !(specBodyMessage b == some "")

/-- The error's own `message` field behaves as the spec assumes: a non-empty
string, or a falsy non-string (so that the code's truthiness test agrees with
the spec's string test). -/
def messageOK (e : JVal) : Bool :=
  match jget e "message" with
  | .str s => !s.isEmpty
  | v => !truthy v

/-- Well-formedness of an error value under which the code realises the spec's
extraction priority: the error is not null or undefined, both candidate body
locations are well behaved, and the top-level `message` field is tame. -/
def errWF (e : JVal) : Bool :=
  (match e with
   | .null => false
   | .undefined => false
   | _ => true)
  && bodyOK (jget (jget e "context") "data")
  && bodyOK (jget (jget (jget e "cause") "response") "data")
  && messageOK e

-- ---------------------------------------------------------------------------
-- API client error wrapping (cospecApiRequest) and the run poller
-- ---------------------------------------------------------------------------

/-- Outcome of the underlying httpRequestWithAuthentication call: a parsed
response body, or a thrown transport error value. -/
inductive ApiOutcome : Type where
  | ok : JObj → ApiOutcome
  | err : JVal → ApiOutcome

/-- An exception escaping the client or the poller: a NodeOperationError whose
message was produced by the extractor, or a raw TypeError that escaped the
extraction (or normalization) itself. -/
inductive Thrown : Type where
  | nodeOpError : JVal → Thrown
  | typeError : String → Thrown
deriving Repr

/-- cospecApiRequest, error path: a successful call returns its body; a thrown
transport error is caught, run through extractApiErrorMessage, and rethrown as
a NodeOperationError carrying the extracted message (a TypeError raised by the
extraction itself escapes unwrapped). -/
def cospecApiRequest (outcome : ApiOutcome) : Except Thrown JObj :=
  match outcome with
  | .ok body => .ok body
  | .err e =>
    match extractApiErrorMessage e with
    | .ok msg => .error (.nodeOpError msg)
    | .error te => .error (.typeError te)

/-- Fixed poll interval in milliseconds. -/
def POLL_INTERVAL_MS : Nat := 5000

/-- Fixed grace buffer in milliseconds added to the user timeout. -/
def TIMEOUT_BUFFER_MS : Nat := 60000

/-- Terminal run statuses. -/
def TERMINAL_STATUSES : List String := ["completed", "failed", "cancelled"]

/-- `TERMINAL_STATUSES.has(run.status as string)`: membership of the status
field in the terminal set (a non-string status is in no set of strings). -/
def isTerminalRun (run : JObj) : Bool :=
  match jget (JVal.obj run) "status" with
  | .str s => TERMINAL_STATUSES.contains s
  | _ => false

/-- Result of one polling session.  Each constructor records how many fetches
and how many sleeps the loop performed (the loop sleeps once before every
fetch, so the two counts coincide); this instruments the loop without changing
what it computes. -/
inductive PollResult : Type where
  | success : JObj → Nat → Nat → PollResult
  | thrown : Thrown → Nat → Nat → PollResult
  | timedOut : String → Nat → Nat → PollResult
deriving Repr

/-- The polling loop body of pollUntilComplete.  `fetch k` is the result of the
k-th GET of the run; `now` is the wall clock, advanced by the poll interval by
each sleep (network time is not modelled, matching a clock that only the sleep
advances).  While `now < deadline`: sleep, fetch; a thrown fetch propagates; a
terminal status returns the normalized run (a TypeError thrown by the
normalization propagates); otherwise loop.  Past the deadline, a timeout
NodeOperationError naming the run ID and the user timeout is thrown. -/
def pollLoop (fetch : Nat → Except Thrown JObj) (runId : String)
    (timeoutSeconds : Nat) (k now deadline : Nat) : PollResult :=
  if _h : now < deadline then
    match fetch k with
    | .error e => .thrown e (k + 1) (k + 1)
    | .ok run =>
      if isTerminalRun run then
        match flattenRunOutput run with
        | .ok out => .success out (k + 1) (k + 1)
        | .error te => .thrown (.typeError te) (k + 1) (k + 1)
      else pollLoop fetch runId timeoutSeconds (k + 1) (now + POLL_INTERVAL_MS) deadline
  else
    .timedOut ("Run " ++ runId ++ " did not complete within " ++ toString timeoutSeconds
      ++ "s timeout") k k
termination_by deadline - now
decreasing_by simp only [POLL_INTERVAL_MS]; omega

/-- pollUntilComplete: deadline is the start time plus the user timeout plus
the grace buffer, then the polling loop runs from the start time. -/
def pollUntilComplete (runId : String) (timeoutSeconds : Nat)
    (fetch : Nat → Except Thrown JObj) (t0 : Nat) : PollResult :=
  pollLoop fetch runId timeoutSeconds 0 t0 (t0 + timeoutSeconds * 1000 + TIMEOUT_BUFFER_MS)

/-- Number of loop iterations a full timeout takes: the least n with
n * POLL_INTERVAL_MS reaching the user timeout plus the grace buffer. -/
def numPolls (timeoutSeconds : Nat) : Nat :=
  (timeoutSeconds * 1000 + TIMEOUT_BUFFER_MS + (POLL_INTERVAL_MS - 1)) / POLL_INTERVAL_MS

/-- JavaScript string coercion as performed by a template literal.  Array
elements are joined by commas with null and undefined elements rendered
empty; plain objects render as the usual object tag. -/
def jsTemplateString : JVal → String
  | .undefined => "undefined"
  | .null => "null"
  | .bool b => if b then "true" else "false"
  | .num n => toString n
  | .str s => s
  | .obj _ => "[object Object]"
  | .arr xs => String.intercalate ","
      (xs.attach.map fun x =>
        match x with
        | ⟨.null, _⟩ => ""
        | ⟨.undefined, _⟩ => ""
        | ⟨v, _⟩ => jsTemplateString v)

/-- Result of the createRun operation handler. -/
inductive CreateRunResult : Type where
  | immediate : JObj → CreateRunResult
  | polled : PollResult → CreateRunResult
deriving Repr

/-- createRun after the POST: when waitForCompletion is false the creation
response is returned as is; otherwise the poller runs against the created
run's id. -/
def createRun (response : JObj) (waitForCompletion : Bool) (timeoutSeconds : Nat)
    (fetch : Nat → Except Thrown JObj) (t0 : Nat) : CreateRunResult :=
  if !waitForCompletion then .immediate response
  else .polled (pollUntilComplete (jsTemplateString (jget (JVal.obj response) "id"))
    timeoutSeconds fetch t0)

/-- getRun: fetches the run and returns its normalized form (a TypeError from
the normalization propagates). -/
def getRun (fetchResult : Except Thrown JObj) : Except Thrown JObj :=
  match fetchResult with
  | .error e => .error e
  | .ok run =>
    match flattenRunOutput run with
    | .ok out => .ok out
    | .error te => .error (.typeError te)

-- ---------------------------------------------------------------------------
-- Object lemmas
-- ---------------------------------------------------------------------------

theorem jlookup_filter_of_pass (o : JObj) (p : String × JVal → Bool) (k : String)
    (hp : ∀ v, p (k, v) = true) : jlookup (o.filter p) k = jlookup o k := by
  induction o with
  | nil => rfl
  | cons kv rest ih =>
    obtain ⟨k2, v⟩ := kv
    by_cases hk : k2 = k
    · subst hk
      simp [List.filter_cons, hp v, jlookup]
    · rw [List.filter_cons]
      cases hpv : p (k2, v) with
      | true => simp only [if_true, jlookup, if_neg hk]; exact ih
      | false => simp only [Bool.false_eq_true, if_false, jlookup, if_neg hk]; exact ih

theorem hasKey_filter_of_fail (o : JObj) (p : String × JVal → Bool) (k : String)
    (hp : ∀ v, p (k, v) = false) : hasKey (o.filter p) k = false := by
  induction o with
  | nil => rfl
  | cons kv rest ih =>
    obtain ⟨k2, v⟩ := kv
    by_cases hk : k2 = k
    · subst hk
      simp [List.filter_cons, hp v, ih]
    · rw [List.filter_cons]
      cases hpv : p (k2, v) with
      | true =>
        simp only [if_true, hasKey]
        rw [ih, show (k2 == k) = false by simpa using hk]
        rfl
      | false => simp only [Bool.false_eq_true, if_false]; exact ih

theorem hasKey_setKey (o : JObj) (k k2 : String) (v : JVal) :
    hasKey (setKey o k2 v) k = (hasKey o k || k == k2) := by
  induction o with
  | nil => simp [setKey, hasKey, BEq.comm]
  | cons kv rest ih =>
    obtain ⟨k3, v3⟩ := kv
    rw [setKey]
    by_cases hk3 : k3 = k2
    · rw [if_pos hk3]
      subst hk3
      by_cases hk : k3 = k
      · subst hk
        simp [hasKey]
      · rw [hasKey, hasKey, show (k3 == k) = false by simpa using hk]
        simp only [Bool.false_or]
        rw [show (k == k3) = false from by simpa using Ne.symm hk]
        simp
    · rw [if_neg hk3]
      rw [hasKey, hasKey, ih, Bool.or_assoc]

theorem jlookup_setKey_self (o : JObj) (k : String) (v : JVal) :
    jlookup (setKey o k v) k = some v := by
  induction o with
  | nil => simp [setKey, jlookup]
  | cons kv rest ih =>
    obtain ⟨k2, v2⟩ := kv
    rw [setKey]
    by_cases hk : k2 = k
    · rw [if_pos hk, jlookup, if_pos hk]
    · rw [if_neg hk, jlookup, if_neg hk]
      exact ih

theorem jlookup_setKey_ne (o : JObj) (k k2 : String) (v : JVal) (h : k ≠ k2) :
    jlookup (setKey o k2 v) k = jlookup o k := by
  induction o with
  | nil => simp [setKey, jlookup, Ne.symm h]
  | cons kv rest ih =>
    obtain ⟨k3, v3⟩ := kv
    rw [setKey]
    by_cases hk3 : k3 = k2
    · rw [if_pos hk3, jlookup, jlookup]
      have : k3 ≠ k := by rw [hk3]; exact Ne.symm h
      rw [if_neg this, if_neg this]
    · rw [if_neg hk3, jlookup, jlookup]
      by_cases hk : k3 = k
      · rw [if_pos hk, if_pos hk]
      · rw [if_neg hk, if_neg hk]
        exact ih

-- ---------------------------------------------------------------------------
-- Normalizer lemmas
-- ---------------------------------------------------------------------------

/-- No element of the list is null or undefined, so every scan of it is safe. -/
def cleanOutputs (l : List JVal) : Bool :=
  l.all fun o =>
    match o with
    | .null => false
    | .undefined => false
    | _ => true

/-- The `outputs` field of a run record is tolerable: absent, nullish, or an
array with no null or undefined elements. -/
def outputsOK (run : JObj) : Bool :=
  match nullishDefault (jlookup run "outputs") (JVal.arr []) with
  | .arr l => cleanOutputs l
  | _ => false

theorem jlookup_filterInternal_outputs (run : JObj) :
    jlookup (filterInternal run) "outputs" = jlookup run "outputs" := by
  unfold filterInternal
  exact jlookup_filter_of_pass run (fun kv => !(INTERNAL_FIELDS.contains kv.1)) "outputs"
    (fun v => by
      show (!(INTERNAL_FIELDS.contains "outputs")) = true
      decide)

theorem jgetE_ok (o : JVal) (k : String) (h1 : o ≠ .null) (h2 : o ≠ .undefined) :
    jgetE o k = .ok (jget o k) := by
  cases o with
  | null => exact absurd rfl h1
  | undefined => exact absurd rfl h2
  | bool b => rfl
  | num n => rfl
  | str s => rfl
  | arr xs => rfl
  | obj fs => rfl

theorem firstOfType_ok_find (l : List JVal) (t : String) (r : Option JVal)
    (h : firstOfType l t = .ok r) : jfindType l t = r := by
  induction l with
  | nil =>
    rw [firstOfType] at h
    injection h
  | cons o rest ih =>
    rw [firstOfType] at h
    by_cases hn : o = JVal.null
    · rw [hn] at h; exact absurd h (by simp [jgetE])
    by_cases hu : o = JVal.undefined
    · rw [hu] at h; exact absurd h (by simp [jgetE])
    simp only [jgetE_ok o "type" hn hu] at h
    by_cases hs : strictEqStr (jget o "type") t = true
    · simp only [hs, if_true] at h
      injection h with h
      unfold jfindType
      rw [List.find?]
      simp only [hs]
      exact h
    · rw [Bool.not_eq_true] at hs
      simp only [hs, Bool.false_eq_true, if_false] at h
      unfold jfindType
      rw [List.find?]
      simp only [hs]
      exact ih h

theorem firstOfType_of_clean (l : List JVal) (t : String) (h : cleanOutputs l = true) :
    firstOfType l t = .ok (jfindType l t) := by
  induction l with
  | nil => rfl
  | cons o rest ih =>
    rw [cleanOutputs, List.all_cons, Bool.and_eq_true] at h
    obtain ⟨ho, hrest⟩ := h
    have hn : o ≠ JVal.null := by intro hc; rw [hc] at ho; exact absurd ho (by decide)
    have hu : o ≠ JVal.undefined := by intro hc; rw [hc] at ho; exact absurd ho (by decide)
    rw [firstOfType, jgetE_ok o "type" hn hu]
    unfold jfindType
    rw [List.find?]
    by_cases hs : strictEqStr (jget o "type") t = true
    · simp only [hs, if_true]
    · rw [Bool.not_eq_true] at hs
      simp only [hs, Bool.false_eq_true, if_false]
      exact ih hrest

/-- The normalized record a successful run of the normalizer produces. -/
def flatChain (run : JObj) (pr issue branch text : Option JVal) : JObj :=
  setKey (setKey (setKey (setKey (filterInternal run) "pr" (recordShape pr))
    "issue" (recordShape issue)) "branch" (branchShape branch))
    "summary" (summaryShape text)

theorem flatten_ok_elim (run : JObj) (out : JObj)
    (h : flattenRunOutput run = .ok out) :
    ∃ l pr issue branch text,
      nullishDefault (jlookup run "outputs") (JVal.arr []) = .arr l ∧
      firstOfType l "pr" = .ok pr ∧
      firstOfType l "issue" = .ok issue ∧
      firstOfType l "branch" = .ok branch ∧
      firstOfType l "text" = .ok text ∧
      out = flatChain run pr issue branch text := by
  unfold flattenRunOutput at h
  rw [jlookup_filterInternal_outputs] at h
  split at h
  case _ l hl =>
    split at h
    case _ e he => exact absurd h (by simp)
    case _ pr hpr =>
      split at h
      case _ e he => exact absurd h (by simp)
      case _ issue hissue =>
        split at h
        case _ e he => exact absurd h (by simp)
        case _ branch hbranch =>
          split at h
          case _ e he => exact absurd h (by simp)
          case _ text htext =>
            injection h with h
            exact ⟨l, pr, issue, branch, text, hl, hpr, hissue, hbranch, htext, h.symm⟩
  case _ v hv => exact absurd h (by simp)

theorem flatten_ok_intro (run : JObj) (l : List JVal) (pr issue branch text : Option JVal)
    (hl : nullishDefault (jlookup run "outputs") (JVal.arr []) = .arr l)
    (hpr : firstOfType l "pr" = .ok pr)
    (hissue : firstOfType l "issue" = .ok issue)
    (hbranch : firstOfType l "branch" = .ok branch)
    (htext : firstOfType l "text" = .ok text) :
    flattenRunOutput run = .ok (flatChain run pr issue branch text) := by
  unfold flattenRunOutput
  rw [jlookup_filterInternal_outputs]
  simp only [hl, hpr, hissue, hbranch, htext]
  rfl

-- ---------------------------------------------------------------------------
-- Poller lemmas
-- ---------------------------------------------------------------------------

theorem pollLoop_timeout_aux (fetch : Nat → Except Thrown JObj) (runId : String) (ts : Nat)
    (hf : ∀ k, ∃ r, fetch k = .ok r ∧ isTerminalRun r = false) :
    ∀ d k now deadline, deadline - now = d →
    pollLoop fetch runId ts k now deadline =
      .timedOut ("Run " ++ runId ++ " did not complete within " ++ toString ts ++ "s timeout")
        (k + (d + 4999) / 5000) (k + (d + 4999) / 5000) := by
  intro d
  induction d using Nat.strong_induction_on with
  | _ d ih =>
    intro k now deadline hd
    rw [pollLoop]
    by_cases h : now < deadline
    · rw [dif_pos h]
      obtain ⟨r, hr, ht⟩ := hf k
      simp only [hr, ht, Bool.false_eq_true, if_false]
      have hlt : deadline - (now + POLL_INTERVAL_MS) < d := by
        simp only [POLL_INTERVAL_MS]
        omega
      rw [ih _ hlt (k + 1) (now + POLL_INTERVAL_MS) deadline rfl]
      have harith : k + 1 + (deadline - (now + POLL_INTERVAL_MS) + 4999) / 5000 =
          k + (d + 4999) / 5000 := by
        simp only [POLL_INTERVAL_MS]
        omega
      rw [harith]
    · rw [dif_neg h]
      have harith : k = k + (d + 4999) / 5000 := by omega
      rw [← harith]

theorem pollLoop_skip (fetch : Nat → Except Thrown JObj) (runId : String) (ts : Nat) :
    ∀ m k now deadline,
    (∀ j, j < m → ∃ r, fetch (k + j) = .ok r ∧ isTerminalRun r = false) →
    now + POLL_INTERVAL_MS * m < deadline →
    pollLoop fetch runId ts k now deadline =
      pollLoop fetch runId ts (k + m) (now + POLL_INTERVAL_MS * m) deadline := by
  intro m
  induction m with
  | zero =>
    intro k now deadline _ _
    simp
  | succ m ih =>
    intro k now deadline hf hlt
    rw [pollLoop]
    have h0 : now < deadline := by
      simp only [POLL_INTERVAL_MS] at hlt
      omega
    rw [dif_pos h0]
    obtain ⟨r, hr, ht⟩ := hf 0 (by omega)
    rw [Nat.add_zero] at hr
    simp only [hr, ht, Bool.false_eq_true, if_false]
    have hrec := ih (k + 1) (now + POLL_INTERVAL_MS) deadline
      (fun j hj => by
        have hfj := hf (j + 1) (by omega)
        rwa [show k + (j + 1) = k + 1 + j by omega] at hfj)
      (by simp only [POLL_INTERVAL_MS] at hlt ⊢; omega)
    rw [hrec]
    have e1 : k + 1 + m = k + (m + 1) := by omega
    have e2 : now + POLL_INTERVAL_MS + POLL_INTERVAL_MS * m = now + POLL_INTERVAL_MS * (m + 1) := by
      simp only [POLL_INTERVAL_MS]
      omega
    rw [e1, e2]

-- ---------------------------------------------------------------------------
-- Extractor lemmas
-- ---------------------------------------------------------------------------

theorem extractFromBody_eq_spec (b : JVal) (h : headSafe b = true) :
    extractFromBody b = .ok (specBodyMessage b) := by
  unfold headSafe at h
  unfold extractFromBody specBodyMessage
  rcases hd : jget b "detail" with _ | _ | bb | n | s | xs | fs <;> simp only [hd]
  all_goals rcases he : jget b "errors" with _ | _ | b2 | n2 | s2 | xs2 | fs2 <;>
    simp only [he] at h ⊢
  all_goals rcases xs2 with _ | ⟨first, rest⟩ <;> simp only at h ⊢
  all_goals
    have hn : first ≠ JVal.null := by
      intro hc
      rw [hc] at h
      exact absurd h (by decide)
  all_goals
    have hu : first ≠ JVal.undefined := by
      intro hc
      rw [hc] at h
      exact absurd h (by decide)
  all_goals simp only [jgetE_ok first "message" hn hu]
  all_goals rcases hm : jget first "message" with _ | _ | b3 | n3 | s3 | xs3 | fs3 <;>
    simp only [hm]

theorem tryBody_eq_spec (b : JVal) (h : bodyOK b = true) : tryBody b = .ok (specLocMsg b) := by
  unfold bodyOK at h
  rw [Bool.and_eq_true] at h
  obtain ⟨hsafe, hne⟩ := h
  unfold tryBody specLocMsg
  cases b with
  | undefined => rfl
  | null => rfl
  | bool bb => cases bb <;> rfl
  | num n =>
    by_cases hz : truthy (JVal.num n) = true
    · rw [if_pos hz]; rfl
    · rw [Bool.not_eq_true] at hz; rw [hz]; simp
  | str s =>
    by_cases hz : truthy (JVal.str s) = true
    · rw [if_pos hz]; rfl
    · rw [Bool.not_eq_true] at hz; rw [hz]; simp
  | arr xs => rfl
  | obj fs =>
    have ht : truthy (JVal.obj fs) = true := rfl
    rw [if_pos ht]
    rw [extractFromBody_eq_spec _ hsafe]
    cases hmsg : specBodyMessage (JVal.obj fs) with
    | none => simp only [hmsg]
    | some s =>
      simp only [hmsg]
      have hs : s.isEmpty = false := by
        rw [hmsg] at hne
        by_cases hse : s = ""
        · rw [hse] at hne; exact absurd hne (by decide)
        · rw [Bool.eq_false_iff]
          intro hc
          exact hse ((String.isEmpty_iff s).mp hc)
      rw [hs]
      simp

theorem flatChain_pr (run : JObj) (pr issue branch text : Option JVal) :
    jlookup (flatChain run pr issue branch text) "pr" = some (recordShape pr) := by
  unfold flatChain
  rw [jlookup_setKey_ne _ _ _ _ (by decide), jlookup_setKey_ne _ _ _ _ (by decide),
    jlookup_setKey_ne _ _ _ _ (by decide), jlookup_setKey_self]

theorem flatChain_issue (run : JObj) (pr issue branch text : Option JVal) :
    jlookup (flatChain run pr issue branch text) "issue" = some (recordShape issue) := by
  unfold flatChain
  rw [jlookup_setKey_ne _ _ _ _ (by decide), jlookup_setKey_ne _ _ _ _ (by decide),
    jlookup_setKey_self]

theorem flatChain_branch (run : JObj) (pr issue branch text : Option JVal) :
    jlookup (flatChain run pr issue branch text) "branch" = some (branchShape branch) := by
  unfold flatChain
  rw [jlookup_setKey_ne _ _ _ _ (by decide), jlookup_setKey_self]

theorem flatChain_summary (run : JObj) (pr issue branch text : Option JVal) :
    jlookup (flatChain run pr issue branch text) "summary" = some (summaryShape text) := by
  unfold flatChain
  rw [jlookup_setKey_self]

theorem flatChain_other (run : JObj) (pr issue branch text : Option JVal) (k : String)
    (h1 : k ≠ "pr") (h2 : k ≠ "issue") (h3 : k ≠ "branch") (h4 : k ≠ "summary") :
    jlookup (flatChain run pr issue branch text) k = jlookup (filterInternal run) k := by
  unfold flatChain
  rw [jlookup_setKey_ne _ _ _ _ h4, jlookup_setKey_ne _ _ _ _ h3,
    jlookup_setKey_ne _ _ _ _ h2, jlookup_setKey_ne _ _ _ _ h1]


-- ---------------------------------------------------------------------------
-- Claim theorems
-- ---------------------------------------------------------------------------

/-- C4: for every raw run the normalizer derives pr and issue as
{url, title, number} records, branch as a {name} record, and summary as the
text output's content, each taken from the first element of the outputs list
with the matching type tag, and null when no such element exists. -/
theorem c4_derived_fields (run out : JObj) (h : flattenRunOutput run = .ok out) :
    jlookup out "pr" = some (recordShape (jfindType (runOutputsList run) "pr")) ∧
    jlookup out "issue" = some (recordShape (jfindType (runOutputsList run) "issue")) ∧
    jlookup out "branch" = some (branchShape (jfindType (runOutputsList run) "branch")) ∧
    jlookup out "summary" = some (summaryShape (jfindType (runOutputsList run) "text")) := by
  obtain ⟨l, pr, issue, branch, text, hl, hpr, hissue, hbranch, htext, hout⟩ :=
    flatten_ok_elim run out h
  have hrl : runOutputsList run = l := by
    unfold runOutputsList
    rw [hl]
  subst hout
  rw [hrl, firstOfType_ok_find l "pr" pr hpr, firstOfType_ok_find l "issue" issue hissue,
    firstOfType_ok_find l "branch" branch hbranch, firstOfType_ok_find l "text" text htext]
  exact ⟨flatChain_pr run pr issue branch text, flatChain_issue run pr issue branch text,
    flatChain_branch run pr issue branch text, flatChain_summary run pr issue branch text⟩

/-- C4 witness: the spec example, outputs with one pr record and one text
record, at concrete values. -/
theorem c4_derived_fields_witness :
    jlookup [("outputs", JVal.arr
        [JVal.obj [("type", JVal.str "pr"), ("url", JVal.str "u"), ("title", JVal.str "t"),
          ("number", JVal.num 1)],
         JVal.obj [("type", JVal.str "text"), ("content", JVal.str "s")]]),
      ("pr", JVal.obj [("url", JVal.str "u"), ("title", JVal.str "t"), ("number", JVal.num 1)]),
      ("issue", JVal.null), ("branch", JVal.null), ("summary", JVal.str "s")] "pr" =
      some (JVal.obj [("url", JVal.str "u"), ("title", JVal.str "t"), ("number", JVal.num 1)]) ∧
    jlookup [("outputs", JVal.arr
        [JVal.obj [("type", JVal.str "pr"), ("url", JVal.str "u"), ("title", JVal.str "t"),
          ("number", JVal.num 1)],
         JVal.obj [("type", JVal.str "text"), ("content", JVal.str "s")]]),
      ("pr", JVal.obj [("url", JVal.str "u"), ("title", JVal.str "t"), ("number", JVal.num 1)]),
      ("issue", JVal.null), ("branch", JVal.null), ("summary", JVal.str "s")] "issue" =
      some JVal.null ∧
    jlookup [("outputs", JVal.arr
        [JVal.obj [("type", JVal.str "pr"), ("url", JVal.str "u"), ("title", JVal.str "t"),
          ("number", JVal.num 1)],
         JVal.obj [("type", JVal.str "text"), ("content", JVal.str "s")]]),
      ("pr", JVal.obj [("url", JVal.str "u"), ("title", JVal.str "t"), ("number", JVal.num 1)]),
      ("issue", JVal.null), ("branch", JVal.null), ("summary", JVal.str "s")] "branch" =
      some JVal.null ∧
    jlookup [("outputs", JVal.arr
        [JVal.obj [("type", JVal.str "pr"), ("url", JVal.str "u"), ("title", JVal.str "t"),
          ("number", JVal.num 1)],
         JVal.obj [("type", JVal.str "text"), ("content", JVal.str "s")]]),
      ("pr", JVal.obj [("url", JVal.str "u"), ("title", JVal.str "t"), ("number", JVal.num 1)]),
      ("issue", JVal.null), ("branch", JVal.null), ("summary", JVal.str "s")] "summary" =
      some (JVal.str "s") := by
  have h := c4_derived_fields
    [("outputs", JVal.arr
      [JVal.obj [("type", JVal.str "pr"), ("url", JVal.str "u"), ("title", JVal.str "t"),
        ("number", JVal.num 1)],
       JVal.obj [("type", JVal.str "text"), ("content", JVal.str "s")]])]
    [("outputs", JVal.arr
      [JVal.obj [("type", JVal.str "pr"), ("url", JVal.str "u"), ("title", JVal.str "t"),
        ("number", JVal.num 1)],
       JVal.obj [("type", JVal.str "text"), ("content", JVal.str "s")]]),
     ("pr", JVal.obj [("url", JVal.str "u"), ("title", JVal.str "t"), ("number", JVal.num 1)]),
     ("issue", JVal.null), ("branch", JVal.null), ("summary", JVal.str "s")]
    rfl
  exact h

/-- C5: the four internal field names never appear as keys of a normalized
record, whatever the input record held. -/
theorem c5_internal_fields_absent (run out : JObj) (k : String)
    (h : flattenRunOutput run = .ok out) (hk : k ∈ INTERNAL_FIELDS) :
    hasKey out k = false := by
  obtain ⟨l, pr, issue, branch, text, hl, hpr, hissue, hbranch, htext, hout⟩ :=
    flatten_ok_elim run out h
  subst hout
  unfold flatChain
  rw [hasKey_setKey, hasKey_setKey, hasKey_setKey, hasKey_setKey]
  have hfilter : hasKey (filterInternal run) k = false := by
    unfold filterInternal
    apply hasKey_filter_of_fail
    intro v
    fin_cases hk <;> rfl
  rw [hfilter]
  fin_cases hk <;> decide

/-- C5 witness: a record carrying all four internal fields, at concrete
values. -/
theorem c5_internal_fields_absent_witness :
    hasKey [("id", JVal.str "r1"), ("pr", JVal.null), ("issue", JVal.null),
      ("branch", JVal.null), ("summary", JVal.null)] "callbackUrl" = false := by
  have h := c5_internal_fields_absent
    [("callbackUrl", JVal.str "cb"), ("callbackStatus", JVal.str "ok"),
     ("cancelRequestedAt", JVal.null), ("templateId", JVal.str "tp"), ("id", JVal.str "r1")]
    [("id", JVal.str "r1"), ("pr", JVal.null), ("issue", JVal.null),
     ("branch", JVal.null), ("summary", JVal.null)]
    "callbackUrl" rfl (by simp [INTERNAL_FIELDS])
  exact h

/-- C7 counterexample: a record whose `outputs` field is a number (present,
non-nullish, not an array) makes the normalizer throw a TypeError, so it is
not failure-free on malformed `outputs`. -/
theorem c7_flatten_counterexample :
    flattenRunOutput [("outputs", JVal.num 1)] =
      .error "TypeError: outputs.find is not a function" := rfl

/-- C7 (amended): the normalizer is failure-free whenever the `outputs` field
is absent, null or undefined, or an array without null or undefined elements;
a present non-array value (or a null or undefined element) raises a
TypeError. -/
theorem c7_flatten_total_on_tolerated (run : JObj) (h : outputsOK run = true) :
    ∃ out, flattenRunOutput run = .ok out := by
  unfold outputsOK at h
  rcases hv : nullishDefault (jlookup run "outputs") (JVal.arr []) with _ | _ | b | n | s | l | fs <;>
    rw [hv] at h
  case arr =>
    exact ⟨flatChain run (jfindType l "pr") (jfindType l "issue") (jfindType l "branch")
      (jfindType l "text"),
      flatten_ok_intro run l _ _ _ _ hv (firstOfType_of_clean l "pr" h)
        (firstOfType_of_clean l "issue" h) (firstOfType_of_clean l "branch" h)
        (firstOfType_of_clean l "text" h)⟩
  all_goals simp at h

/-- C7 witness: a record with no outputs field at all normalizes without
failure. -/
theorem c7_flatten_total_witness :
    ∃ out, flattenRunOutput [("id", JVal.str "run_1")] = .ok out :=
  c7_flatten_total_on_tolerated [("id", JVal.str "run_1")] rfl

/-- C8 counterexample: an input record with an original top-level field named
pr (value 5) is not preserved — the derived pr value (null here) overwrites
it. -/
theorem c8_preserve_counterexample :
    flattenRunOutput [("pr", JVal.num 5)] =
      .ok [("pr", JVal.null), ("issue", JVal.null), ("branch", JVal.null),
        ("summary", JVal.null)] ∧
    jlookup [("pr", JVal.null), ("issue", JVal.null), ("branch", JVal.null),
      ("summary", JVal.null)] "pr" = some JVal.null ∧
    JVal.null ≠ JVal.num 5 :=
  ⟨rfl, rfl, fun hc => JVal.noConfusion hc⟩

/-- C8 (amended): every original top-level field whose name is neither one of
the four internal fields nor one of the four derived names pr, issue, branch,
summary is preserved in the normalized output with its original value;
original fields carrying a derived name are overwritten by the derived
value. -/
theorem c8_preserves_fields (run out : JObj) (k : String)
    (h : flattenRunOutput run = .ok out)
    (hki : INTERNAL_FIELDS.contains k = false)
    (hkd : (["pr", "issue", "branch", "summary"]).contains k = false) :
    jlookup out k = jlookup run k := by
  obtain ⟨l, pr, issue, branch, text, hl, hpr, hissue, hbranch, htext, hout⟩ :=
    flatten_ok_elim run out h
  subst hout
  have h1 : k ≠ "pr" := by
    intro hc
    rw [hc] at hkd
    exact absurd hkd (by decide)
  have h2 : k ≠ "issue" := by
    intro hc
    rw [hc] at hkd
    exact absurd hkd (by decide)
  have h3 : k ≠ "branch" := by
    intro hc
    rw [hc] at hkd
    exact absurd hkd (by decide)
  have h4 : k ≠ "summary" := by
    intro hc
    rw [hc] at hkd
    exact absurd hkd (by decide)
  rw [flatChain_other run pr issue branch text k h1 h2 h3 h4]
  unfold filterInternal
  apply jlookup_filter_of_pass
  intro v
  show (!(INTERNAL_FIELDS.contains k)) = true
  rw [hki]
  rfl

/-- C8 witness: an ordinary field (id) survives normalization with its
original value while internal fields are dropped. -/
theorem c8_preserves_fields_witness :
    jlookup [("id", JVal.str "r1"), ("pr", JVal.null), ("issue", JVal.null),
      ("branch", JVal.null), ("summary", JVal.null)] "id" =
    jlookup [("id", JVal.str "r1"), ("callbackUrl", JVal.str "cb")] "id" := by
  have h := c8_preserves_fields [("id", JVal.str "r1"), ("callbackUrl", JVal.str "cb")]
    [("id", JVal.str "r1"), ("pr", JVal.null), ("issue", JVal.null),
     ("branch", JVal.null), ("summary", JVal.null)] "id" rfl rfl rfl
  exact h

/-- C9: re-applying the normalizer to an already-normalized record does not
fail and yields the same four derived fields as the first application. -/
theorem c9_idempotent (x y : JObj) (h : flattenRunOutput x = .ok y) :
    ∃ z, flattenRunOutput y = .ok z ∧
      jlookup z "pr" = jlookup y "pr" ∧
      jlookup z "issue" = jlookup y "issue" ∧
      jlookup z "branch" = jlookup y "branch" ∧
      jlookup z "summary" = jlookup y "summary" := by
  obtain ⟨l, pr, issue, branch, text, hl, hpr, hissue, hbranch, htext, hout⟩ :=
    flatten_ok_elim x y h
  have hyo : jlookup y "outputs" = jlookup x "outputs" := by
    rw [hout]
    rw [flatChain_other x pr issue branch text "outputs" (by decide) (by decide) (by decide)
      (by decide)]
    exact jlookup_filterInternal_outputs x
  have hly : nullishDefault (jlookup y "outputs") (JVal.arr []) = .arr l := by
    rw [hyo]
    exact hl
  refine ⟨flatChain y pr issue branch text,
    flatten_ok_intro y l pr issue branch text hly hpr hissue hbranch htext, ?_, ?_, ?_, ?_⟩
  · rw [flatChain_pr y pr issue branch text, hout, flatChain_pr x pr issue branch text]
  · rw [flatChain_issue y pr issue branch text, hout, flatChain_issue x pr issue branch text]
  · rw [flatChain_branch y pr issue branch text, hout, flatChain_branch x pr issue branch text]
  · rw [flatChain_summary y pr issue branch text, hout, flatChain_summary x pr issue branch text]

/-- C9 witness: normalizing the normalized form of the spec example again
preserves all four derived fields. -/
theorem c9_idempotent_witness :
    ∃ z, flattenRunOutput [("outputs", JVal.arr
        [JVal.obj [("type", JVal.str "pr"), ("url", JVal.str "u"), ("title", JVal.str "t"),
          ("number", JVal.num 1)],
         JVal.obj [("type", JVal.str "text"), ("content", JVal.str "s")]]),
      ("pr", JVal.obj [("url", JVal.str "u"), ("title", JVal.str "t"), ("number", JVal.num 1)]),
      ("issue", JVal.null), ("branch", JVal.null), ("summary", JVal.str "s")] = .ok z ∧
      jlookup z "pr" = jlookup [("outputs", JVal.arr
        [JVal.obj [("type", JVal.str "pr"), ("url", JVal.str "u"), ("title", JVal.str "t"),
          ("number", JVal.num 1)],
         JVal.obj [("type", JVal.str "text"), ("content", JVal.str "s")]]),
      ("pr", JVal.obj [("url", JVal.str "u"), ("title", JVal.str "t"), ("number", JVal.num 1)]),
      ("issue", JVal.null), ("branch", JVal.null), ("summary", JVal.str "s")] "pr" ∧
      jlookup z "issue" = jlookup [("outputs", JVal.arr
        [JVal.obj [("type", JVal.str "pr"), ("url", JVal.str "u"), ("title", JVal.str "t"),
          ("number", JVal.num 1)],
         JVal.obj [("type", JVal.str "text"), ("content", JVal.str "s")]]),
      ("pr", JVal.obj [("url", JVal.str "u"), ("title", JVal.str "t"), ("number", JVal.num 1)]),
      ("issue", JVal.null), ("branch", JVal.null), ("summary", JVal.str "s")] "issue" ∧
      jlookup z "branch" = jlookup [("outputs", JVal.arr
        [JVal.obj [("type", JVal.str "pr"), ("url", JVal.str "u"), ("title", JVal.str "t"),
          ("number", JVal.num 1)],
         JVal.obj [("type", JVal.str "text"), ("content", JVal.str "s")]]),
      ("pr", JVal.obj [("url", JVal.str "u"), ("title", JVal.str "t"), ("number", JVal.num 1)]),
      ("issue", JVal.null), ("branch", JVal.null), ("summary", JVal.str "s")] "branch" ∧
      jlookup z "summary" = jlookup [("outputs", JVal.arr
        [JVal.obj [("type", JVal.str "pr"), ("url", JVal.str "u"), ("title", JVal.str "t"),
          ("number", JVal.num 1)],
         JVal.obj [("type", JVal.str "text"), ("content", JVal.str "s")]]),
      ("pr", JVal.obj [("url", JVal.str "u"), ("title", JVal.str "t"), ("number", JVal.num 1)]),
      ("issue", JVal.null), ("branch", JVal.null), ("summary", JVal.str "s")] "summary" := by
  have h := c9_idempotent
    [("outputs", JVal.arr
      [JVal.obj [("type", JVal.str "pr"), ("url", JVal.str "u"), ("title", JVal.str "t"),
        ("number", JVal.num 1)],
       JVal.obj [("type", JVal.str "text"), ("content", JVal.str "s")]])]
    [("outputs", JVal.arr
      [JVal.obj [("type", JVal.str "pr"), ("url", JVal.str "u"), ("title", JVal.str "t"),
        ("number", JVal.num 1)],
       JVal.obj [("type", JVal.str "text"), ("content", JVal.str "s")]]),
     ("pr", JVal.obj [("url", JVal.str "u"), ("title", JVal.str "t"), ("number", JVal.num 1)]),
     ("issue", JVal.null), ("branch", JVal.null), ("summary", JVal.str "s")]
    rfl
  exact h

/-- C2: when no fetched status is ever terminal, polling throws a timeout
error whose message names the run ID and the user-configured timeoutSeconds
(not the grace-extended value), and the loop gives up exactly when the elapsed
time first reaches timeoutSeconds plus the fixed 60 second grace buffer. -/
theorem c2_poll_timeout (runId : String) (ts : Nat) (fetch : Nat → Except Thrown JObj)
    (t0 : Nat) (hf : ∀ k, ∃ r, fetch k = .ok r ∧ isTerminalRun r = false) :
    pollUntilComplete runId ts fetch t0 =
      .timedOut ("Run " ++ runId ++ " did not complete within " ++ toString ts ++ "s timeout")
        (numPolls ts) (numPolls ts) ∧
    POLL_INTERVAL_MS * numPolls ts ≥ ts * 1000 + TIMEOUT_BUFFER_MS ∧
    POLL_INTERVAL_MS * (numPolls ts - 1) < ts * 1000 + TIMEOUT_BUFFER_MS := by
  refine ⟨?_, ?_, ?_⟩
  · unfold pollUntilComplete
    rw [pollLoop_timeout_aux fetch runId ts hf (t0 + ts * 1000 + TIMEOUT_BUFFER_MS - t0) 0 t0
      (t0 + ts * 1000 + TIMEOUT_BUFFER_MS) rfl]
    have harith : 0 + (t0 + ts * 1000 + TIMEOUT_BUFFER_MS - t0 + 4999) / 5000 = numPolls ts := by
      unfold numPolls POLL_INTERVAL_MS TIMEOUT_BUFFER_MS
      omega
    rw [harith]
  · unfold numPolls POLL_INTERVAL_MS TIMEOUT_BUFFER_MS
    omega
  · unfold numPolls POLL_INTERVAL_MS TIMEOUT_BUFFER_MS
    omega

/-- C2 witness: a run that always reports running, with a 30 second timeout,
times out after 18 polls (90 seconds = 30s timeout + 60s grace). -/
theorem c2_poll_timeout_witness :
    pollUntilComplete "run_x" 30 (fun _ => .ok [("status", JVal.str "running")]) 0 =
      .timedOut "Run run_x did not complete within 30s timeout" 18 18 ∧
    POLL_INTERVAL_MS * 18 ≥ 30 * 1000 + TIMEOUT_BUFFER_MS ∧
    POLL_INTERVAL_MS * (18 - 1) < 30 * 1000 + TIMEOUT_BUFFER_MS := by
  have h := c2_poll_timeout "run_x" 30 (fun _ => .ok [("status", JVal.str "running")]) 0
    (fun k => ⟨[("status", JVal.str "running")], rfl, rfl⟩)
  exact h

/-- C3: the poller sleeps one fixed interval before every fetch, keeps polling
through any number of non-terminal statuses, and returns the normalized run at
the first fetch whose status is terminal (the iteration counts record one
sleep per fetch); with statuses running, running, completed this gives exactly
3 fetches and 3 sleeps. -/
theorem c3_poll_first_terminal (runId : String) (ts : Nat)
    (fetch : Nat → Except Thrown JObj) (t0 m : Nat) (r out : JObj)
    (hpre : ∀ j, j < m → ∃ rj, fetch j = .ok rj ∧ isTerminalRun rj = false)
    (hm : fetch m = .ok r) (hterm : isTerminalRun r = true)
    (hout : flattenRunOutput r = .ok out)
    (hbudget : POLL_INTERVAL_MS * m < ts * 1000 + TIMEOUT_BUFFER_MS) :
    pollUntilComplete runId ts fetch t0 = .success out (m + 1) (m + 1) := by
  unfold pollUntilComplete
  rw [pollLoop_skip fetch runId ts m 0 t0 (t0 + ts * 1000 + TIMEOUT_BUFFER_MS)
    (fun j hj => by simpa using hpre j hj)
    (by simp only [POLL_INTERVAL_MS, TIMEOUT_BUFFER_MS] at hbudget ⊢; omega)]
  rw [pollLoop]
  rw [dif_pos (by simp only [POLL_INTERVAL_MS, TIMEOUT_BUFFER_MS] at hbudget ⊢; omega)]
  simp only [Nat.zero_add, hm, hterm, if_true, hout]

/-- C3 witness: statuses running, running, completed produce the normalized
final run after exactly 3 fetches and 3 sleeps. -/
theorem c3_poll_first_terminal_witness :
    pollUntilComplete "r1" 600
      (fun k => if k = 0 then .ok [("status", JVal.str "running")]
        else if k = 1 then .ok [("status", JVal.str "running")]
        else .ok [("status", JVal.str "completed")]) 0 =
      .success [("status", JVal.str "completed"), ("pr", JVal.null), ("issue", JVal.null),
        ("branch", JVal.null), ("summary", JVal.null)] 3 3 := by
  have h := c3_poll_first_terminal "r1" 600
    (fun k => if k = 0 then .ok [("status", JVal.str "running")]
      else if k = 1 then .ok [("status", JVal.str "running")]
      else .ok [("status", JVal.str "completed")]) 0 2
    [("status", JVal.str "completed")]
    [("status", JVal.str "completed"), ("pr", JVal.null), ("issue", JVal.null),
     ("branch", JVal.null), ("summary", JVal.null)]
    (fun j hj => by
      interval_cases j
      · exact ⟨[("status", JVal.str "running")], rfl, rfl⟩
      · exact ⟨[("status", JVal.str "running")], rfl, rfl⟩)
    rfl rfl rfl (by decide)
  exact h

/-- C6: a GET that fails during polling is not caught by the poller: the
NodeOperationError built by the API client from the extracted message
propagates at once, the poll ends, and no retry of the failed request happens
(the fetch count stops at the failing fetch). -/
theorem c6_failed_get_propagates (runId : String) (ts : Nat) (outcomes : Nat → ApiOutcome)
    (t0 m : Nat) (httpErr msg : JVal)
    (hpre : ∀ j, j < m → ∃ rj, outcomes j = .ok rj ∧ isTerminalRun rj = false)
    (hm : outcomes m = .err httpErr)
    (hex : extractApiErrorMessage httpErr = .ok msg)
    (hbudget : POLL_INTERVAL_MS * m < ts * 1000 + TIMEOUT_BUFFER_MS) :
    pollUntilComplete runId ts (fun k => cospecApiRequest (outcomes k)) t0 =
      .thrown (.nodeOpError msg) (m + 1) (m + 1) := by
  unfold pollUntilComplete
  rw [pollLoop_skip (fun k => cospecApiRequest (outcomes k)) runId ts m 0 t0
    (t0 + ts * 1000 + TIMEOUT_BUFFER_MS)
    (fun j hj => by
      obtain ⟨rj, hrj, htj⟩ := hpre j hj
      refine ⟨rj, ?_, htj⟩
      simp only [Nat.zero_add, hrj]
      rfl)
    (by simp only [POLL_INTERVAL_MS, TIMEOUT_BUFFER_MS] at hbudget ⊢; omega)]
  rw [pollLoop]
  rw [dif_pos (by simp only [POLL_INTERVAL_MS, TIMEOUT_BUFFER_MS] at hbudget ⊢; omega)]
  simp only [Nat.zero_add, hm]
  unfold cospecApiRequest
  simp only [hex]

/-- C6 witness: one running status, then a failed GET whose transport error
carries an RFC 9457 detail; the poll ends after that second fetch with the
extracted message. -/
theorem c6_failed_get_propagates_witness :
    pollUntilComplete "r2" 600
      (fun k => cospecApiRequest (if k = 0 then .ok [("status", JVal.str "running")]
        else .err (JVal.obj [("context", JVal.obj [("data",
          JVal.obj [("detail", JVal.str "boom")])])]))) 0 =
      .thrown (.nodeOpError (JVal.str "boom")) 2 2 := by
  have h := c6_failed_get_propagates "r2" 600
    (fun k => if k = 0 then .ok [("status", JVal.str "running")]
      else .err (JVal.obj [("context", JVal.obj [("data",
        JVal.obj [("detail", JVal.str "boom")])])])) 0 1
    (JVal.obj [("context", JVal.obj [("data", JVal.obj [("detail", JVal.str "boom")])])])
    (JVal.str "boom")
    (fun j hj => by
      interval_cases j
      exact ⟨[("status", JVal.str "running")], rfl, rfl⟩)
    rfl rfl (by decide)
  exact h

/-- C1 counterexample: extracting from a null error value throws a TypeError
(reading `context` of null), so the extractor is not failure-free on every
error value. -/
theorem c1_extractor_counterexample :
    extractApiErrorMessage JVal.null =
      .error "TypeError: cannot read properties of null" := rfl

/-- C1 (amended): for every error value that is not null or undefined, whose
two candidate body locations have a safe errors-array head and yield only
non-empty messages, and whose own message field is a non-empty string or a
falsy non-string, the extractor returns exactly the string prescribed by the
spec priority order: context body, else transport-cause body (within a body:
detail, else first errors entry message, else title), else a description
string, else the error's own message, else the literal fallback. -/
theorem c1_extractor_refines_spec (e : JVal) (h : errWF e = true) :
    extractApiErrorMessage e = .ok (.str (specExtract e)) := by
  unfold errWF at h
  rw [Bool.and_eq_true, Bool.and_eq_true, Bool.and_eq_true] at h
  obtain ⟨⟨⟨hne, hb1⟩, hb2⟩, hmsg⟩ := h
  have hnn : e ≠ JVal.null := by
    intro hc
    rw [hc] at hne
    exact absurd hne (by decide)
  have hnu : e ≠ JVal.undefined := by
    intro hc
    rw [hc] at hne
    exact absurd hne (by decide)
  unfold extractApiErrorMessage specExtract
  simp only [jgetE_ok e "context" hnn hnu]
  simp only [tryBody_eq_spec _ hb1]
  cases hm1 : specLocMsg (jget (jget e "context") "data") with
  | some s => simp only [hm1]
  | none =>
    simp only [hm1]
    simp only [tryBody_eq_spec _ hb2]
    cases hm2 : specLocMsg (jget (jget (jget e "cause") "response") "data") with
    | some s => simp only [hm2]
    | none =>
      simp only [hm2]
      unfold messageOK at hmsg
      rcases hd : jget e "description" with _ | _ | b3 | n3 | s3 | xs3 | fs3 <;>
        simp only [hd]
      all_goals rcases hm : jget e "message" with _ | _ | b4 | n4 | s4 | xs4 | fs4 <;>
        simp only [hm] at hmsg ⊢
      all_goals try simp [truthy] at hmsg
      all_goals try simp [truthy, hmsg]

/-- C1 witness: a NodeApiError-shaped object with an RFC 9457 body carrying a
detail at context.data is well formed and extracts that detail. -/
theorem c1_extractor_refines_spec_witness :
    errWF (JVal.obj [("context", JVal.obj [("data",
      JVal.obj [("detail", JVal.str "Invalid repo")])])]) = true ∧
    extractApiErrorMessage (JVal.obj [("context", JVal.obj [("data",
      JVal.obj [("detail", JVal.str "Invalid repo")])])]) = .ok (JVal.str "Invalid repo") := by
  refine ⟨rfl, ?_⟩
  have h := c1_extractor_refines_spec (JVal.obj [("context", JVal.obj [("data",
    JVal.obj [("detail", JVal.str "Invalid repo")])])]) rfl
  exact h

/-- C10: with waitForCompletion disabled, createRun returns the raw creation
response unchanged — flattenRunOutput is not applied, so internal fields are
not stripped and no derived fields appear; the record is exactly the POST
response. -/
theorem c10_create_run_no_wait (response : JObj) (ts : Nat)
    (fetch : Nat → Except Thrown JObj) (t0 : Nat) :
    createRun response false ts fetch t0 = .immediate response := rfl
